import Mathlib

/-!
# Verification of the ESP32 radio song server (`src/server.py`)

The server holds a fixed catalog `SONGS` of ten songs keyed by an integer
station id and answers three GET endpoints:

* `/song?station=n` (`get_song`): validates the query parameter (missing /
  unparseable, then range, then catalog lookup) and returns the matching
  song's `frequencies` and `durations` (the `name` is withheld);
* `/stations` (`list_stations`): maps every station id (rendered as a string
  key, as `jsonify` does for integer dict keys) to an object holding only the
  song's `name`;
* `/health` (`health`): a fixed `"ok"` status plus the catalog's size.

The embedding below mirrors the Python line by line: the catalog is an
association list `List (Int × Song)` (distinct keys, insertion order as in
the source dict), the handlers are functions of the parsed request, and an
HTTP outcome is either a 200 body or a `(status, error-message)` pair.
Flask's `request.args.get('station', type=int)` yields `None` both when the
parameter is absent and when it fails to parse as an integer, so a parsed
request is modelled as `Option Int`.
-/

/-- One entry of the `SONGS` dict in `src/server.py`: a display `name`, the
`frequencies` list (Hz, `0` denotes a rest) and the `durations` list
(milliseconds), paired positionally. -/
structure Song where
  name : String
  frequencies : List Nat
  durations : List Nat
deriving DecidableEq, Repr

/-- The fixed catalog `SONGS` of `src/server.py`, transcribed entry for
entry in the dict's insertion order (station ids 0 through 9). -/
def SONGS : List (Int × Song) := [
  (0, { name := "C Major Scale",
        frequencies := [262, 294, 330, 349, 392, 440, 494, 523],
        durations := [500, 500, 500, 500, 500, 500, 500, 500] }),
  (1, { name := "Twinkle Twinkle Little Star",
        frequencies := [262, 262, 392, 392, 440, 440, 392, 349, 349, 330, 330, 294, 294, 262],
        durations := [500, 500, 500, 500, 500, 500, 1000, 500, 500, 500, 500, 500, 500, 1000] }),
  (2, { name := "Happy Birthday",
        frequencies := [262, 262, 294, 262, 349, 330, 262, 262, 294, 262, 392, 349, 262, 262, 523, 440, 349, 330, 294],
        durations := [250, 250, 500, 500, 500, 1000, 250, 250, 500, 500, 500, 1000, 250, 250, 500, 500, 500, 500, 1000] }),
  (3, { name := "Jingle Bells",
        frequencies := [330, 330, 330, 330, 330, 330, 330, 392, 262, 294, 330, 349, 349, 349, 349, 349, 330, 330, 330, 294, 294, 330, 294, 392],
        durations := [500, 500, 1000, 500, 500, 1000, 500, 500, 500, 500, 2000, 500, 500, 500, 500, 500, 500, 500, 250, 250, 500, 500, 500, 500] }),
  (4, { name := "Mario Theme",
        frequencies := [659, 659, 0, 659, 0, 523, 659, 0, 784, 0, 392, 0, 523, 0, 392, 0, 330, 0, 440, 0, 494, 0, 466, 0, 392, 0, 659, 0, 784, 0, 880, 0, 698, 0, 784, 0, 659, 0, 523, 0, 587, 0, 494],
        durations := [150, 300, 150, 300, 300, 300, 300, 300, 300, 300, 300, 150, 300, 150, 300, 300, 300, 300, 300, 150, 300, 150, 300, 300, 300, 300, 300, 300, 300, 300, 300, 300, 300, 150, 300, 150, 300, 300, 300, 300, 300, 300, 300] }),
  (5, { name := "Star Wars Theme",
        frequencies := [440, 440, 440, 349, 523, 440, 349, 523, 440, 659, 659, 659, 698, 523, 415, 349, 523, 440],
        durations := [500, 500, 500, 350, 150, 500, 350, 150, 650, 500, 500, 500, 350, 150, 500, 350, 150, 650] }),
  (6, { name := "Fur Elise",
        frequencies := [659, 622, 659, 622, 659, 494, 587, 523, 440, 0, 262, 330, 440, 494, 0, 330, 415, 494, 523, 0, 330, 440, 523, 587],
        durations := [200, 200, 200, 200, 200, 200, 200, 200, 400, 200, 200, 200, 200, 400, 200, 200, 200, 200, 400, 200, 200, 200, 200, 400] }),
  (7, { name := "Ode to Joy",
        frequencies := [392, 392, 440, 392, 523, 494, 392, 392, 440, 392, 349, 330, 392, 392, 440, 392, 523, 494, 440, 349, 349, 330, 294, 262],
        durations := [500, 500, 500, 500, 500, 1000, 500, 500, 500, 500, 500, 1000, 500, 500, 500, 500, 500, 1000, 500, 500, 500, 500, 500, 1000] }),
  (8, { name := "Canon in D",
        frequencies := [294, 330, 349, 392, 440, 392, 349, 330, 294, 330, 349, 392, 440, 494, 523, 494, 440, 392],
        durations := [600, 600, 600, 600, 600, 600, 600, 600, 1200, 600, 600, 600, 600, 600, 600, 600, 600, 1200] }),
  (9, { name := "Chromatic Scale",
        frequencies := [262, 277, 294, 311, 330, 349, 370, 392, 415, 440, 466, 494, 523],
        durations := [400, 400, 400, 400, 400, 400, 400, 400, 400, 400, 400, 400, 400] })]

/-- Outcome of a handler: a 200 success carrying a body, or an error carrying
the HTTP status code and the `error` message of the JSON error object. -/
inductive HttpResult (α : Type) where
  | ok (body : α)
  | err (status : Nat) (msg : String)
deriving DecidableEq, Repr

/-- The HTTP status code of a result (`jsonify(body)` alone is a 200). -/
def HttpResult.status {α : Type} : HttpResult α → Nat
  | .ok _ => 200
  | .err s _ => s

/-- The success body of `/song`: exactly the two fields the handler copies
into its `response` dict — `frequencies` and `durations`, never `name`. -/
structure SongPayload where
  frequencies : List Nat
  durations : List Nat
deriving DecidableEq, Repr

/-- The `/song` handler `get_song` of `src/server.py`, generic in the catalog
it reads (the source reads the module-level `SONGS`).  `station` is the
already-parsed query parameter: `none` when absent or unparseable.  The
checks appear in the source's order: missing parameter, then range, then the
`SONGS.get(station)` lookup. -/
def get_song_with (catalog : List (Int × Song)) (station : Option Int) :
    HttpResult SongPayload :=
  match station with
  | none => .err 400 "Missing station parameter"
  | some n =>
    if n < 0 ∨ n > 9 then
      .err 400 "Station must be between 0 and 9"
    else
      match catalog.lookup n with
      | none => .err 404 ("Station " ++ toString n ++ " not found")
      | some song => .ok { frequencies := song.frequencies, durations := song.durations }

/-- `get_song` as deployed: reading the fixed catalog `SONGS`. -/
def get_song (station : Option Int) : HttpResult SongPayload :=
  get_song_with SONGS station

/-- The value stored per station by `/stations`: an object holding only the
song's `name`. -/
structure StationInfo where
  name : String
deriving DecidableEq, Repr

/-- The `/stations` handler `list_stations` of `src/server.py`, generic in
the catalog: a dict comprehension over the catalog's entries, with each
integer key rendered as a string (as `jsonify` serialises int dict keys). -/
def list_stations_with (catalog : List (Int × Song)) : List (String × StationInfo) :=
  catalog.map (fun p => (toString p.1, { name := p.2.name }))

/-- `list_stations` as deployed: reading the fixed catalog `SONGS`. -/
def list_stations : List (String × StationInfo) :=
  list_stations_with SONGS

/-- The `/health` handler of `src/server.py`: the fixed `"ok"` status paired
with `len(SONGS)`, generic in the catalog. -/
def health_with (catalog : List (Int × Song)) : String × Nat :=
  ("ok", catalog.length)

/-- `health` as deployed: reading the fixed catalog `SONGS`. -/
def health : String × Nat :=
  health_with SONGS

/-- One `/song` request against the server's state (the catalog): the handler
never writes, so the state comes back unchanged next to the response. -/
def handle_song (catalog : List (Int × Song)) (station : Option Int) :
    List (Int × Song) × HttpResult SongPayload :=
  (catalog, get_song_with catalog station)

/-- A sequence of `/song` requests processed in order, threading the server's
state (the catalog) through every call. -/
def serve (catalog : List (Int × Song)) :
    List (Option Int) → List (Int × Song) × List (HttpResult SongPayload)
  | [] => (catalog, [])
  | r :: rs =>
    let p := handle_song catalog r
    let q := serve p.1 rs
    (q.1, p.2 :: q.2)

/-- Every in-range station id has an entry in the fixed catalog, and the
handler answers it with that entry's payload. -/
lemma get_song_in_range_eq (n : Int) (h0 : 0 ≤ n) (h9 : n ≤ 9) :
    ∃ song, SONGS.lookup n = some song ∧
      get_song (some n) = .ok { frequencies := song.frequencies,
                                durations := song.durations } := by
  interval_cases n <;> exact ⟨_, rfl, rfl⟩

/-- An out-of-range integer parameter is rejected before the catalog is read. -/
lemma get_song_out_of_range (catalog : List (Int × Song)) (n : Int)
    (h : n < 0 ∨ n > 9) :
    get_song_with catalog (some n) = .err 400 "Station must be between 0 and 9" := by
  simp [get_song_with, h]

/-- C1: for every station id in [0, 9], `get_song` succeeds and returns a
payload whose frequency and duration lists have equal, non-zero length, with
every duration strictly positive (frequencies may be 0, denoting a rest). -/
theorem get_song_in_range_wellformed (n : Int) (h0 : 0 ≤ n) (h9 : n ≤ 9) :
    ∃ p : SongPayload, get_song (some n) = .ok p ∧
      p.frequencies.length = p.durations.length ∧
      p.durations.length ≠ 0 ∧
      ∀ d ∈ p.durations, 0 < d := by
  interval_cases n <;> exact ⟨_, rfl, by decide, by decide, by decide⟩

/-- C1 witness: the property instantiated at station 3. -/
theorem get_song_in_range_wellformed_witness :
    ∃ p : SongPayload, get_song (some 3) = .ok p ∧
      p.frequencies.length = p.durations.length ∧
      p.durations.length ≠ 0 ∧
      ∀ d ∈ p.durations, 0 < d :=
  get_song_in_range_wellformed 3 (by decide) (by decide)

/-- C2: `get_song` answers 400 "Missing station parameter" exactly when the
parameter is absent or unparseable (a `none` input), and 400 "Station must be
between 0 and 9" exactly when the parameter is an integer outside [0, 9]; no
other input produces either error. -/
theorem get_song_error_cases (st : Option Int) :
    (get_song st = .err 400 "Missing station parameter" ↔ st = none) ∧
    (get_song st = .err 400 "Station must be between 0 and 9" ↔
      ∃ n, st = some n ∧ (n < 0 ∨ n > 9)) := by
  match st with
  | none =>
    refine ⟨⟨fun _ => rfl, fun _ => rfl⟩, ⟨fun h => absurd h (by decide), fun h => ?_⟩⟩
    obtain ⟨n, hn, -⟩ := h
    exact Option.noConfusion hn
  | some n =>
    unfold get_song
    by_cases h : n < 0 ∨ n > 9
    · rw [get_song_out_of_range SONGS n h]
      refine ⟨⟨fun he => absurd he (by decide), fun he => Option.noConfusion he⟩,
              ⟨fun _ => ⟨n, rfl, h⟩, fun _ => rfl⟩⟩
    · obtain ⟨song, -, he⟩ := get_song_in_range_eq n (by omega) (by omega)
      rw [show get_song_with SONGS (some n) = get_song (some n) from rfl, he]
      refine ⟨⟨fun c => absurd c (by simp), fun c => Option.noConfusion c⟩,
              ⟨fun c => absurd c (by simp), fun c => ?_⟩⟩
      obtain ⟨m, hm, hr⟩ := c
      injection hm with hnm
      omega

/-- C3: the validation steps run in the stated order — for ANY catalog, a
`none` parameter yields the missing-parameter error and an out-of-range
integer yields the range error (never the missing-parameter message); since
both hold for every catalog, the catalog is consulted only for in-range
values. -/
theorem get_song_validation_order (catalog : List (Int × Song)) (n : Int)
    (h : n < 0 ∨ n > 9) :
    get_song_with catalog (some n) = .err 400 "Station must be between 0 and 9" ∧
    get_song_with catalog none = .err 400 "Missing station parameter" :=
  ⟨get_song_out_of_range catalog n h, rfl⟩

/-- C3 witness: the empty catalog with station 10, and with no parameter. -/
theorem get_song_validation_order_witness :
    get_song_with [] (some 10) = .err 400 "Station must be between 0 and 9" ∧
    get_song_with [] none = .err 400 "Missing station parameter" :=
  get_song_validation_order [] 10 (by decide)

/-- C4: a successful `get_song` response is exactly the two fields
`frequencies` and `durations` of the matching catalog entry, copied verbatim
(`SongPayload` has no other field — in particular no `name`), and the call
leaves the catalog unchanged (`handle_song` returns it as-is). -/
theorem get_song_success_verbatim (n : Int) (p : SongPayload)
    (h : get_song (some n) = .ok p) :
    (∃ song, SONGS.lookup n = some song ∧
      p.frequencies = song.frequencies ∧ p.durations = song.durations) ∧
    handle_song SONGS (some n) = (SONGS, .ok p) := by
  constructor
  · by_cases hr : n < 0 ∨ n > 9
    · rw [show get_song (some n) = get_song_with SONGS (some n) from rfl,
        get_song_out_of_range SONGS n hr] at h
      exact absurd h (by simp)
    · obtain ⟨song, hl, he⟩ := get_song_in_range_eq n (by omega) (by omega)
      rw [he] at h
      injection h with hp
      exact ⟨song, hl, by rw [← hp], by rw [← hp]⟩
  · show (SONGS, get_song (some n)) = (SONGS, .ok p)
    rw [h]

/-- C4 witness: station 0's payload is station 0's stored song, verbatim. -/
theorem get_song_success_verbatim_witness :
    (∃ song, SONGS.lookup 0 = some song ∧
      ([262, 294, 330, 349, 392, 440, 494, 523] : List Nat) = song.frequencies ∧
      ([500, 500, 500, 500, 500, 500, 500, 500] : List Nat) = song.durations) ∧
    handle_song SONGS (some 0) =
      (SONGS, .ok { frequencies := [262, 294, 330, 349, 392, 440, 494, 523],
                    durations := [500, 500, 500, 500, 500, 500, 500, 500] }) :=
  get_song_success_verbatim 0
    { frequencies := [262, 294, 330, 349, 392, 440, 494, 523],
      durations := [500, 500, 500, 500, 500, 500, 500, 500] } (by decide)

/-- C5: `list_stations` unconditionally succeeds: for every catalog its keys
are exactly the catalog's station ids rendered as strings and its values the
corresponding name-only objects; the empty catalog yields the empty mapping,
and the default catalog yields exactly 10 entries keyed "0".."9", each with a
non-empty name. -/
theorem list_stations_spec :
    list_stations_with [] = [] ∧
    (∀ catalog : List (Int × Song),
      (list_stations_with catalog).map Prod.fst = catalog.map (fun p => toString p.1) ∧
      (list_stations_with catalog).map Prod.snd =
        catalog.map (fun p => { name := p.2.name : StationInfo })) ∧
    list_stations.map Prod.fst = ["0", "1", "2", "3", "4", "5", "6", "7", "8", "9"] ∧
    list_stations.length = 10 ∧
    list_stations.all (fun p => !(p.2.name == "")) = true := by
  refine ⟨rfl, fun catalog => ⟨?_, ?_⟩, by decide, by decide, by decide⟩
  · rw [list_stations_with, List.map_map]
    rfl
  · rw [list_stations_with, List.map_map]
    rfl

/-- C6: `health` always succeeds with the fixed "ok" status paired with the
catalog's current entry count, whatever the catalog; with the default
10-entry catalog the result is exactly ("ok", 10). -/
theorem health_spec :
    health = ("ok", 10) ∧
    ∀ catalog : List (Int × Song), health_with catalog = ("ok", catalog.length) :=
  ⟨rfl, fun _ => rfl⟩

/-- C7: station 0 returns exactly the C-major-scale payload, and station 4's
payload is the stored Mario song verbatim — its twenty 0-frequency rests are
preserved in place (e.g. at index 2), neither omitted nor treated as errors. -/
theorem concrete_payloads :
    get_song (some 0) =
      .ok { frequencies := [262, 294, 330, 349, 392, 440, 494, 523],
            durations := [500, 500, 500, 500, 500, 500, 500, 500] } ∧
    ∃ song, SONGS.lookup 4 = some song ∧
      get_song (some 4) = .ok { frequencies := song.frequencies,
                                durations := song.durations } ∧
      song.frequencies.count 0 = 20 ∧ song.frequencies[2]? = some 0 := by
  exact ⟨by decide, ⟨_, rfl, rfl, by decide, by decide⟩⟩

/-- Serving a request sequence never changes the catalog, and the responses
are the pointwise image of the requests under the pure handler. -/
lemma serve_eq (catalog : List (Int × Song)) (reqs : List (Option Int)) :
    serve catalog reqs = (catalog, reqs.map (get_song_with catalog)) := by
  induction reqs with
  | nil => rfl
  | cons r rs ih =>
    show ((serve catalog rs).1, get_song_with catalog r :: (serve catalog rs).2) =
      (catalog, get_song_with catalog r :: rs.map (get_song_with catalog))
    rw [ih]

/-- C8: `get_song` is deterministic and idempotent — serving any sequence of
requests leaves the catalog unchanged, each response is a fixed pure function
of its own request, so requests with the same station anywhere in any
interleaving receive identical responses. -/
theorem serve_deterministic (catalog : List (Int × Song)) (reqs : List (Option Int)) :
    (serve catalog reqs).1 = catalog ∧
    (serve catalog reqs).2 = reqs.map (get_song_with catalog) ∧
    ∀ i j : Nat, reqs[i]? = reqs[j]? →
      (serve catalog reqs).2[i]? = (serve catalog reqs).2[j]? := by
  refine ⟨by rw [serve_eq], by rw [serve_eq], fun i j h => ?_⟩
  rw [serve_eq]
  simp only [List.getElem?_map, h]

/-- C9: with the default catalog the NotFound branch of `get_song` is dead:
every result's status is 200 or 400, so no input whatsoever — missing,
in-range or out-of-range — produces a 404. -/
theorem get_song_never_404 (st : Option Int) :
    (get_song st).status = 200 ∨ (get_song st).status = 400 := by
  match st with
  | none => exact Or.inr rfl
  | some n =>
    by_cases h : n < 0 ∨ n > 9
    · right
      rw [show get_song (some n) = get_song_with SONGS (some n) from rfl,
        get_song_out_of_range SONGS n h]
      rfl
    · left
      obtain ⟨song, -, he⟩ := get_song_in_range_eq n (by omega) (by omega)
      rw [he]
      rfl

/-- C10: the endpoints are mutually consistent over the shared catalog: a
`/song` request for integer n succeeds exactly when n lies in [0, 9] and the
string form of n is a key of the `list_stations` mapping, and `health`'s
station count equals the number of `list_stations` entries. -/
theorem endpoints_consistent :
    (∀ n : Int, (get_song (some n)).status = 200 ↔
      (0 ≤ n ∧ n ≤ 9 ∧ toString n ∈ list_stations.map Prod.fst)) ∧
    health.2 = list_stations.length := by
  refine ⟨fun n => ⟨fun h => ?_, fun h => ?_⟩, rfl⟩
  · by_cases hr : n < 0 ∨ n > 9
    · rw [show get_song (some n) = get_song_with SONGS (some n) from rfl,
        get_song_out_of_range SONGS n hr] at h
      exact absurd h (by decide)
    · refine ⟨by omega, by omega, ?_⟩
      have h0 : 0 ≤ n := by omega
      have h9 : n ≤ 9 := by omega
      interval_cases n <;> decide
  · obtain ⟨song, -, he⟩ := get_song_in_range_eq n h.1 h.2.1
    rw [he]
    rfl
